import Mathlib

/-!
Verification development for the Kino-bot Telegram movie-catalog bot
(`src/main.py`).

The bot is embedded shallowly:

* the three database tables (`movies`, `categories`, `users`) become lists
  of records inside a `DB` structure, and every SQL statement of the source
  becomes a pure function on `DB` (the `ON CONFLICT DO UPDATE` upserts
  become insert-or-overwrite on the primary-key column);
* Python's `str.strip` and `str.split(";")` are re-implemented structurally
  over `List Char` (`pyStrip`, `splitSemi`) so that they evaluate inside the
  kernel; SQL `ILIKE` pattern matching is modelled by `likeMatch`;
* the Telegram side effects (replies, video deliveries, membership lookups,
  broadcast sends) are recorded in an explicit action trace (`Act`), with
  reply texts abstracted into the `Msg` inductive (the exact Uzbek strings
  and emoji of the source are presentation only and are elided; the menu
  label strings are kept as distinct ASCII constants);
* each Telegram handler of the source (`start`, `admin`, `button_handler`,
  `text_handler`) becomes a function from the database, the environment
  (admin list, per-channel membership-lookup outcomes, broadcast delivery
  oracle) and the per-admin pending-state flags to an action trace plus the
  updated database and state.  A Python exception escaping a handler is
  modelled by the `Outcome.unpackError` result.
-/

namespace Kino

/-! ### Python string primitives, re-implemented structurally -/

/-- Python `str.split(";")` on the character list of a string: splits at every
semicolon, keeping empty fields, and yields `[[]]` on the empty string. -/
def splitSemi : List Char → List (List Char)
  | [] => [[]]
  | c :: rest =>
    let r := splitSemi rest
    if c = ';' then [] :: r
    else
      match r with
      | [] => [[c]]
      | h :: t => (c :: h) :: t

/-- Python `str.strip()`: drop whitespace from both ends. -/
def pyStrip (s : List Char) : List Char :=
  ((s.dropWhile Char.isWhitespace).reverse.dropWhile Char.isWhitespace).reverse

/-- `str.strip` lifted back to `String`. -/
def strip (s : String) : String := String.mk (pyStrip s.toList)

/-- SQL `LIKE` / `ILIKE` pattern matching (first argument is the pattern):
`%` matches any sequence of characters, `_` matches any single character, and
every other pattern character matches case-insensitively (the `I` of
`ILIKE`). -/
def likeMatch : List Char → List Char → Bool
  | [], s => s.isEmpty
  | p :: ps, s =>
    if p = '%' then s.tails.any (fun t => likeMatch ps t)
    else
      match s with
      | [] => false
      | c :: t => (p = '_' || p.toLower = c.toLower) && likeMatch ps t

/-! ### Data model: the three tables of `main.py` -/

/-- A row of the `movies` table. -/
structure Movie where
  code : String
  file_id : String
  title : String
  category : String
  views : Nat
deriving DecidableEq, Repr

/-- A row of the `users` table. -/
structure UserRec where
  user_id : String
  username : String
  last_seen : Nat
deriving DecidableEq, Repr

/-- The relational state: `movies`, `categories` and `users` tables. -/
structure DB where
  movies : List Movie
  categories : List String
  users : List UserRec
deriving DecidableEq, Repr

/-! ### Catalog-store operations (the `FUNCTIONAL` section of `main.py`) -/

/-- `add_user`: insert-or-update keyed on `user_id`; `username or ""` turns a
missing Telegram username into the empty string, `last_seen` is set to the
current time (`datetime.now`). -/
def add_user (db : DB) (user_id : String) (username : Option String) (now : Nat) : DB :=
  if db.users.any (fun u => u.user_id == user_id) then
    { db with users := db.users.map (fun u =>
        if u.user_id == user_id then
          { u with username := username.getD "", last_seen := now }
        else u) }
  else
    { db with users := db.users ++ [⟨user_id, username.getD "", now⟩] }

/-- `add_movie`: insert with `views = 0`, or on a `code` conflict overwrite
`file_id`, `title` and `category` (leaving `views` alone). -/
def add_movie (db : DB) (code file_id title category : String) : DB :=
  if db.movies.any (fun m => m.code == code) then
    { db with movies := db.movies.map (fun m =>
        if m.code == code then
          { m with file_id := file_id, title := title, category := category }
        else m) }
  else
    { db with movies := db.movies ++ [⟨code, file_id, title, category, 0⟩] }

/-- `delete_movie`: delete the rows with the given `code`. -/
def delete_movie (db : DB) (code : String) : DB :=
  { db with movies := db.movies.filter (fun m => !(m.code == code)) }

/-- `add_category`: insert, `ON CONFLICT DO NOTHING`. -/
def add_category (db : DB) (name : String) : DB :=
  if db.categories.any (fun c => c == name) then db
  else { db with categories := db.categories ++ [name] }

/-- `delete_category`: delete the rows with the given `name`. -/
def delete_category (db : DB) (name : String) : DB :=
  { db with categories := db.categories.filter (fun c => !(c == name)) }

/-- `get_movie`: `SELECT ... WHERE code = :code`, first row if any. -/
def get_movie (db : DB) (code : String) : Option Movie :=
  db.movies.find? (fun m => m.code == code)

/-- `get_movies_by_category`: all rows with the given `category`. -/
def get_movies_by_category (db : DB) (category : String) : List Movie :=
  db.movies.filter (fun m => m.category == category)

/-- `search_movies`: `SELECT ... WHERE title ILIKE '%' + query + '%'`. -/
def search_movies (db : DB) (query_text : String) : List Movie :=
  db.movies.filter (fun m => likeMatch ('%' :: query_text.toList ++ ['%']) m.title.toList)

/-- `update_movie_views`: `UPDATE movies SET views = views + 1 WHERE code = :code`. -/
def update_movie_views (db : DB) (code : String) : DB :=
  { db with movies := db.movies.map (fun m =>
      if m.code == code then { m with views := m.views + 1 } else m) }

/-! ### Access control -/

/-- The status strings accepted by `is_subscribed`:
`["member", "administrator", "creator"]` (python-telegram-bot represents the
channel owner by the status string `"creator"`). -/
inductive MemberStatus where
  | member
  | administrator
  | creator
  | left
  | kicked
  | restricted
deriving DecidableEq, Repr

/-- `member.status in ["member", "administrator", "creator"]`. -/
def okStatus : MemberStatus → Bool
  | .member => true
  | .administrator => true
  | .creator => true
  | _ => false

/-- One `get_chat_member` call per configured channel.  `none` models the
call raising (the bare `except` of the source); `some s` a returned status. -/
def okOutcome : Option MemberStatus → Bool
  | none => false
  | some s => okStatus s

/-- The environment a handler runs in: the `ADMINS` allowlist, the outcome
each configured channel's `get_chat_member` call would produce for the
interacting user, the broadcast delivery oracle (`send_message` success per
recipient), and the current time. -/
structure Ctx where
  admins : List String
  channelStatuses : List (Option MemberStatus)
  deliverOk : String → Bool
  now : Nat

/-- `is_admin`: `str(user_id) in ADMINS`. -/
def is_admin (ctx : Ctx) (user_id : String) : Bool :=
  ctx.admins.contains user_id

/-- The loop of `is_subscribed`, returning the result together with the
number of `get_chat_member` lookups actually performed: a raised lookup
(`none`) or a non-accepted status returns `False` at once; otherwise the next
channel is checked. -/
def subCheckRun : List (Option MemberStatus) → Bool × Nat
  | [] => (true, 0)
  | none :: _ => (false, 1)
  | some s :: rest =>
    if okStatus s then
      let r := subCheckRun rest
      (r.1, r.2 + 1)
    else (false, 1)

/-- `is_subscribed`: every configured channel must report an accepted status. -/
def is_subscribed (cs : List (Option MemberStatus)) : Bool :=
  (subCheckRun cs).1

/-- How many channel lookups `is_subscribed` performs before returning. -/
def lookupsPerformed (cs : List (Option MemberStatus)) : Nat :=
  (subCheckRun cs).2

/-! ### Per-admin pending state (the five module-level dicts) -/

/-- The five pending-action flags of one admin user (`adding_movie`,
`deleting_movie`, `adding_category`, `deleting_category`, `broadcasting`);
an absent dictionary entry is `false`. -/
structure AdminState where
  adding_movie : Bool
  deleting_movie : Bool
  adding_category : Bool
  deleting_category : Bool
  broadcasting : Bool
deriving DecidableEq, Repr

/-- All flags cleared (the initial state of every user). -/
def idleState : AdminState := ⟨false, false, false, false, false⟩

/-! ### Observable actions -/

/-- Reply contents, abstracted: one constructor per distinct `reply_text`
payload of the source (the literal Uzbek strings are elided). -/
inductive Msg where
  | subscribeGate
  | welcome
  | notAdmin
  | adminPanel
  | addedMovie (title : String)
  | formatError
  | deletedMovie (code : String)
  | addedCategory (name : String)
  | deletedCategory (name : String)
  | broadcastDone
  | promptAddMovie
  | promptDeleteMovie
  | promptAddCategory
  | promptDeleteCategory
  | promptBroadcast
  | topMovies
  | stats (usersCount moviesCount categoriesCount : Nat)
  | notFound
  | moviesList
  | noMovies
  | categoriesList
  | noCategories
  | categoryMovies (name : String)
  | emptyCategory
  | searchPrompt
  | info
deriving DecidableEq, Repr

/-- One observable step of a handler. -/
inductive Act where
  | upsertUser (user_id : String)
  | subCheck (result : Bool)
  | reply (m : Msg)
  | video (file_id : String) (caption : String)
  | readCatalog
  | writeCatalog
  | readUsers
  | send (user_id : String) (ok : Bool)
deriving DecidableEq, Repr

/-- Is this action an `is_subscribed` membership check? -/
def Act.isSubCheckAct : Act → Bool
  | .subCheck _ => true
  | _ => false

/-- Is this action a user upsert (`add_user`)? -/
def Act.isUpsertAct : Act → Bool
  | .upsertUser _ => true
  | _ => false

/-- Is this action a broadcast delivery attempt? -/
def Act.isSendAct : Act → Bool
  | .send _ _ => true
  | _ => false

/-- Is this action the broadcast completion report? -/
def Act.isDoneAct : Act → Bool
  | .reply .broadcastDone => true
  | _ => false

/-- Is this action a catalog (movies/categories) read? -/
def Act.isCatalogReadAct : Act → Bool
  | .readCatalog => true
  | _ => false

/-- A Python exception escaping the handler (versus normal completion). -/
inductive Outcome where
  | ok
  | unpackError
deriving DecidableEq, Repr

/-! ### The admin-panel menu labels (ASCII stand-ins for the source's
emoji-decorated Uzbek button texts; only their distinctness matters) -/

/-- Label of the add-movie admin button. -/
def addMovieLabel : String := "+ Kino qoshish"

/-- Label of the delete-movie admin button. -/
def deleteMovieLabel : String := "x Kino ochirish"

/-- Label of the add-category admin button. -/
def addCategoryLabel : String := "+ Kategoriya qoshish"

/-- Label of the delete-category admin button. -/
def deleteCategoryLabel : String := "x Kategoriya ochirish"

/-- Label of the top-movies admin button. -/
def topLabel : String := "Top kinolar"

/-- Label of the statistics admin button. -/
def statsLabel : String := "Statistika"

/-- Label of the broadcast admin button. -/
def broadcastLabel : String := "Xabar yuborish"

/-! ### Handlers -/

/-- `/start`: upsert the user, then the subscription gate, then the welcome
menu. -/
def start (db : DB) (ctx : Ctx) (uid : String) (username : Option String) :
    List Act × DB :=
  let db1 := add_user db uid username ctx.now
  if is_subscribed ctx.channelStatuses then
    ([Act.upsertUser uid, Act.subCheck true, Act.reply Msg.welcome], db1)
  else
    ([Act.upsertUser uid, Act.subCheck false, Act.reply Msg.subscribeGate], db1)

/-- `/admin`: only the `is_admin` allowlist test, then the admin panel. -/
def adminCmd (db : DB) (ctx : Ctx) (uid : String) : List Act × DB :=
  if is_admin ctx uid then ([Act.reply Msg.adminPanel], db)
  else ([Act.reply Msg.notAdmin], db)

/-- The callback payloads of `button_handler`, already parsed: the source
dispatches on the raw callback-data string (`"movies"`, `"categories"`,
`"category_" + name`, `"movie_" + code`, `"search"`, `"info"`), which it
itself generated in exactly these shapes; `code`/`name` is the part after the
first underscore (`data.split("_", 1)[1]`). -/
inductive CbData where
  | moviesBtn
  | categoriesBtn
  | categoryBtn (name : String)
  | movieBtn (code : String)
  | searchBtn
  | infoBtn
deriving DecidableEq, Repr

/-- `button_handler`: subscription gate, then the menu dispatch.  The
`movie_` branch is the "open movie" action: on an existing code it increments
the view counter and delivers the video, otherwise it reports not-found.
(List-shaped menu replies are abstracted to their `Msg` tag.) -/
def button_handler (db : DB) (ctx : Ctx) (data : CbData) : List Act × DB :=
  if is_subscribed ctx.channelStatuses then
    let r : List Act × DB :=
      match data with
      | .moviesBtn =>
        if db.movies.isEmpty then ([Act.readCatalog, Act.reply Msg.noMovies], db)
        else ([Act.readCatalog, Act.reply Msg.moviesList], db)
      | .categoriesBtn =>
        if db.categories.isEmpty then ([Act.readCatalog, Act.reply Msg.noCategories], db)
        else ([Act.readCatalog, Act.reply Msg.categoriesList], db)
      | .categoryBtn name =>
        if (get_movies_by_category db name).isEmpty then
          ([Act.readCatalog, Act.reply Msg.emptyCategory], db)
        else ([Act.readCatalog, Act.reply (Msg.categoryMovies name)], db)
      | .movieBtn code =>
        match get_movie db code with
        | some m =>
          ([Act.readCatalog, Act.writeCatalog, Act.video m.file_id m.title],
           update_movie_views db code)
        | none => ([Act.readCatalog, Act.reply Msg.notFound], db)
      | .searchBtn => ([Act.reply Msg.searchPrompt], db)
      | .infoBtn => ([Act.reply Msg.info], db)
    (Act.subCheck true :: r.1, r.2)
  else
    ([Act.subCheck false, Act.reply Msg.subscribeGate], db)

/-- The admin branch of `text_handler` (entered after the subscription gate
when `is_admin` holds), acting on the already-stripped text.  The five
pending flags are tested in source order; with no pending flag the text is
matched against the admin menu labels.  Sending five or more `;`-separated
fields while `adding_movie` is pending raises `ValueError` during the
four-way unpacking (`Outcome.unpackError`): nothing is written, no reply is
sent, and the flag is left set. -/
def admin_text_handler (db : DB) (ctx : Ctx) (st : AdminState) (text : String) :
    List Act × DB × AdminState × Outcome :=
  if st.adding_movie then
    let parts := splitSemi text.toList
    if 4 ≤ parts.length then
      match parts with
      | [c, f, t, cat] =>
        ([Act.writeCatalog, Act.reply (Msg.addedMovie (String.mk (pyStrip t)))],
         add_movie db (String.mk (pyStrip c)) (String.mk (pyStrip f))
           (String.mk (pyStrip t)) (String.mk (pyStrip cat)),
         { st with adding_movie := false }, Outcome.ok)
      | _ => ([], db, st, Outcome.unpackError)
    else
      ([Act.reply Msg.formatError], db, st, Outcome.ok)
  else if st.deleting_movie then
    ([Act.writeCatalog, Act.reply (Msg.deletedMovie text)],
     delete_movie db text, { st with deleting_movie := false }, Outcome.ok)
  else if st.adding_category then
    ([Act.writeCatalog, Act.reply (Msg.addedCategory text)],
     add_category db text, { st with adding_category := false }, Outcome.ok)
  else if st.deleting_category then
    ([Act.writeCatalog, Act.reply (Msg.deletedCategory text)],
     delete_category db text, { st with deleting_category := false }, Outcome.ok)
  else if st.broadcasting then
    ([Act.readUsers] ++ db.users.map (fun u => Act.send u.user_id (ctx.deliverOk u.user_id))
        ++ [Act.reply Msg.broadcastDone],
     db, { st with broadcasting := false }, Outcome.ok)
  else if text == addMovieLabel then
    ([Act.reply Msg.promptAddMovie], db, { st with adding_movie := true }, Outcome.ok)
  else if text == deleteMovieLabel then
    ([Act.reply Msg.promptDeleteMovie], db, { st with deleting_movie := true }, Outcome.ok)
  else if text == addCategoryLabel then
    ([Act.reply Msg.promptAddCategory], db, { st with adding_category := true }, Outcome.ok)
  else if text == deleteCategoryLabel then
    ([Act.reply Msg.promptDeleteCategory], db, { st with deleting_category := true }, Outcome.ok)
  else if text == topLabel then
    ([Act.readCatalog, Act.reply Msg.topMovies], db, st, Outcome.ok)
  else if text == statsLabel then
    ([Act.readCatalog, Act.readCatalog, Act.readCatalog,
      Act.reply (Msg.stats db.users.length db.movies.length db.categories.length)],
     db, st, Outcome.ok)
  else if text == broadcastLabel then
    ([Act.reply Msg.promptBroadcast], db, { st with broadcasting := true }, Outcome.ok)
  else
    ([], db, st, Outcome.ok)

/-- The non-admin branch of `text_handler`: exact code lookup first; on a hit
increment the views and deliver the video; on a miss run the title search and
deliver every match, or report not-found when there is none. -/
def user_text_handler (db : DB) (text : String) : List Act × DB :=
  match get_movie db text with
  | some m =>
    ([Act.readCatalog, Act.writeCatalog, Act.video m.file_id m.title],
     update_movie_views db text)
  | none =>
    let results := search_movies db text
    if results.isEmpty then
      ([Act.readCatalog, Act.readCatalog, Act.reply Msg.notFound], db)
    else
      ([Act.readCatalog, Act.readCatalog]
        ++ results.map (fun m => Act.video m.file_id m.title), db)

/-- `text_handler`: strip the text, subscription gate, then the admin or the
plain-user branch. -/
def text_handler (db : DB) (ctx : Ctx) (uid : String) (st : AdminState)
    (text0 : String) : List Act × DB × AdminState × Outcome :=
  let text := strip text0
  if is_subscribed ctx.channelStatuses then
    if is_admin ctx uid then
      let r := admin_text_handler db ctx st text
      (Act.subCheck true :: r.1, r.2)
    else
      let r := user_text_handler db text
      (Act.subCheck true :: r.1, r.2, st, Outcome.ok)
  else
    ([Act.subCheck false, Act.reply Msg.subscribeGate], db, st, Outcome.ok)

/-- Users-table lookup by `user_id` (for stating properties). -/
def userLookup (db : DB) (uid : String) : Option UserRec :=
  db.users.find? (fun u => u.user_id == uid)

/-- The spec's wording of the title search ("substring search,
case-insensitive, against title"): keep the movies whose lowercased title
contains the lowercased query as a contiguous substring.  Stated from the
spec, to be compared with the source's `search_movies`. -/
def substring_search_spec (db : DB) (q : String) : List Movie :=
  db.movies.filter (fun m =>
    decide ((q.toList.map Char.toLower) <:+: (m.title.toList.map Char.toLower)))

/-- Does the query avoid both SQL `LIKE` wildcards? -/
def noWildcards (q : String) : Bool :=
  q.toList.all (fun c => !(c = '%' || c = '_'))

/-! ### Helper lemmas on the keyed upserts -/

/-- A keyed `UPDATE ... WHERE key = k` commutes with lookup by `k`: the first
matching row simply gets `g` applied, provided `g` preserves the key. -/
theorem find?_map_update {α : Type} (key : α → String) (l : List α) (k : String)
    (g : α → α) (hg : ∀ x, key (g x) = key x) (m : α)
    (h : l.find? (fun x => key x == k) = some m) :
    (l.map (fun x => if key x == k then g x else x)).find? (fun x => key x == k)
      = some (g m) := by
  induction l with
  | nil => simp at h
  | cons a as ih =>
    simp only [List.map_cons]
    by_cases ha : (key a == k) = true
    · have hm : a = m := by simpa [List.find?_cons, ha] using h
      subst hm
      rw [if_pos ha]
      have hga : (key (g a) == k) = true := by rw [hg a]; exact ha
      simp [List.find?_cons, hga]
    · have ha' : (key a == k) = false := by simpa using ha
      have h' : as.find? (fun x => key x == k) = some m := by
        simpa [List.find?_cons, ha'] using h
      rw [if_neg ha]
      simp only [List.find?_cons, ha']
      exact ih h'

/-- Rows whose key differs survive a keyed `UPDATE` untouched. -/
theorem mem_map_update_of_ne {α : Type} (key : α → String) (l : List α) (k : String)
    (g : α → α) (x : α) (hx : x ∈ l) (hne : (key x == k) = false) :
    x ∈ l.map (fun y => if key y == k then g y else y) :=
  List.mem_map.mpr ⟨x, hx, by simp [hne]⟩

/-- `update_movie_views` on a present code: the looked-up row's counter goes
up by exactly one. -/
theorem get_movie_update_views (db : DB) (code : String) (m : Movie)
    (h : get_movie db code = some m) :
    get_movie (update_movie_views db code) code = some { m with views := m.views + 1 } :=
  find?_map_update Movie.code db.movies code
    (fun x => { x with views := x.views + 1 }) (fun _ => rfl) m h

/-- `update_movie_views` leaves rows with a different code in place. -/
theorem mem_update_movie_views_of_ne (db : DB) (code : String) (x : Movie)
    (hx : x ∈ db.movies) (hne : (x.code == code) = false) :
    x ∈ (update_movie_views db code).movies :=
  mem_map_update_of_ne Movie.code db.movies code
    (fun y => { y with views := y.views + 1 }) x hx hne

/-- `add_movie` on an existing code: the stored row keeps its `views` (and
its code) while `file_id`, `title` and `category` are overwritten. -/
theorem get_movie_add_movie_hit (db : DB) (code f t c : String) (m : Movie)
    (h : get_movie db code = some m) :
    get_movie (add_movie db code f t c) code
      = some { m with file_id := f, title := t, category := c } := by
  have h' : db.movies.find? (fun x => x.code == code) = some m := h
  have hpm := List.find?_some h'
  have hmem := List.mem_of_find?_eq_some h'
  have hany : db.movies.any (fun x => x.code == code) = true :=
    List.any_eq_true.mpr ⟨m, hmem, hpm⟩
  have hdb : add_movie db code f t c
      = { db with movies := db.movies.map (fun x =>
          if x.code == code then
            { x with file_id := f, title := t, category := c }
          else x) } := by
    simp [add_movie, hany]
  rw [hdb]
  exact find?_map_update Movie.code db.movies code
    (fun x => { x with file_id := f, title := t, category := c }) (fun _ => rfl) m h'

/-- `add_movie` on a fresh code appends a new row with `views = 0`. -/
theorem add_movie_fresh (db : DB) (code f t c : String)
    (h : get_movie db code = none) :
    (add_movie db code f t c).movies = db.movies ++ [⟨code, f, t, c, 0⟩] := by
  have hany : db.movies.any (fun x => x.code == code) = false :=
    List.any_eq_false.mpr (List.find?_eq_none.mp h)
  simp [add_movie, hany]

/-- Keyed user upsert on a present `user_id`: lookup returns the freshly
written row. -/
theorem users_upsert_find (l : List UserRec) (uid un : String) (now : Nat)
    (v : UserRec) (h : l.find? (fun u => u.user_id == uid) = some v) :
    (l.map (fun u => if u.user_id == uid then
        { u with username := un, last_seen := now } else u)).find?
      (fun u => u.user_id == uid) = some ⟨uid, un, now⟩ := by
  induction l with
  | nil => simp at h
  | cons a as ih =>
    simp only [List.map_cons]
    by_cases ha : (a.user_id == uid) = true
    · have km : a.user_id = uid := by simpa using ha
      rw [if_pos ha]
      simp [List.find?_cons, km]
    · have ha' : (a.user_id == uid) = false := by simpa using ha
      have h' : as.find? (fun u => u.user_id == uid) = some v := by
        simpa [List.find?_cons, ha'] using h
      rw [if_neg ha]
      simp only [List.find?_cons, ha']
      exact ih h'

/-- `add_user` stores exactly the new username and timestamp for the user. -/
theorem userLookup_add_user (db : DB) (uid : String) (username : Option String)
    (now : Nat) :
    userLookup (add_user db uid username now) uid
      = some ⟨uid, username.getD "", now⟩ := by
  by_cases hx : db.users.any (fun u => u.user_id == uid) = true
  · cases hv : db.users.find? (fun u => u.user_id == uid) with
    | none =>
      obtain ⟨u, hu, hpu⟩ := List.any_eq_true.mp hx
      exact absurd hpu (List.find?_eq_none.mp hv u hu)
    | some v =>
      have hdb : add_user db uid username now
          = { db with users := db.users.map (fun u =>
              if u.user_id == uid then
                { u with username := username.getD "", last_seen := now }
              else u) } := by
        simp [add_user, hx]
      rw [userLookup, hdb]
      exact users_upsert_find db.users uid (username.getD "") now v hv
  · have hx' : db.users.any (fun u => u.user_id == uid) = false := by
      simpa using hx
    have hnone : db.users.find? (fun u => u.user_id == uid) = none :=
      List.find?_eq_none.mpr (List.any_eq_false.mp hx')
    simp [userLookup, add_user, hx', List.find?_append, hnone]

/-! ### C2: upsert on an existing code overwrites fields but keeps views -/

/-- **C2** For every movie code already present in the movies table,
upserting a movie with that code overwrites its media reference (`file_id`),
title, and category to the new values while leaving its `views` counter (and
its code) unchanged. -/
theorem C2_upsert_keeps_views (db : DB) (code f t c : String) (m : Movie)
    (h : get_movie db code = some m) :
    get_movie (add_movie db code f t c) code
      = some { code := m.code, file_id := f, title := t, category := c,
               views := m.views } :=
  get_movie_add_movie_hit db code f t c m h

/-- Witness for C2 at a concrete table. -/
theorem C2_witness :
    get_movie (add_movie ⟨[⟨"A1", "oldRef", "Old", "Drama", 7⟩], [], []⟩
        "A1" "newRef" "New" "Action") "A1"
      = some ⟨"A1", "newRef", "New", "Action", 7⟩ :=
  C2_upsert_keeps_views ⟨[⟨"A1", "oldRef", "Old", "Drama", 7⟩], [], []⟩
    "A1" "newRef" "New" "Action" ⟨"A1", "oldRef", "Old", "Drama", 7⟩ (by decide)

/-! ### C3: the subscription check -/

/-- The loop result agrees with the all-channels-accepted predicate. -/
theorem is_subscribed_eq_all (cs : List (Option MemberStatus)) :
    is_subscribed cs = cs.all okOutcome := by
  induction cs with
  | nil => rfl
  | cons o rest ih =>
    cases o with
    | none => simp [is_subscribed, subCheckRun, okOutcome]
    | some s =>
      by_cases hs : okStatus s = true
      · simpa [is_subscribed, subCheckRun, hs, okOutcome] using ih
      · have hs' : okStatus s = false := by simpa using hs
        simp [is_subscribed, subCheckRun, hs', okOutcome]

/-- With an all-accepted prefix and then a failing channel, the loop stops
right after the failing lookup. -/
theorem lookupsPerformed_shortcircuit (pre : List (Option MemberStatus))
    (bad : Option MemberStatus) (post : List (Option MemberStatus))
    (hpre : pre.all okOutcome = true) (hbad : okOutcome bad = false) :
    lookupsPerformed (pre ++ bad :: post) = pre.length + 1 := by
  induction pre with
  | nil =>
    cases bad with
    | none => simp [lookupsPerformed, subCheckRun]
    | some s =>
      have hs : okStatus s = false := hbad
      simp [lookupsPerformed, subCheckRun, hs]
  | cons o pre ih =>
    simp only [List.all_cons, Bool.and_eq_true] at hpre
    obtain ⟨h1, h2⟩ := hpre
    cases o with
    | none => simp [okOutcome] at h1
    | some s =>
      have hs : okStatus s = true := h1
      have hrec := ih h2
      simp only [lookupsPerformed] at hrec
      simp [lookupsPerformed, subCheckRun, hs]
      omega

/-- **C3** `is_subscribed` returns true iff every configured channel's
membership lookup succeeds with a status in {member, administrator, owner}
(the platform encodes the owner as `"creator"`); a raised lookup or a
non-member status yields false, and the loop stops at the first failing or
erroring channel, performing no lookup on the channels after it. -/
theorem C3_is_subscribed (cs : List (Option MemberStatus)) :
    is_subscribed cs = cs.all okOutcome
    ∧ ∀ pre bad post, cs = pre ++ bad :: post → pre.all okOutcome = true →
        okOutcome bad = false → lookupsPerformed cs = pre.length + 1 := by
  refine ⟨is_subscribed_eq_all cs, ?_⟩
  rintro pre bad post rfl hpre hbad
  exact lookupsPerformed_shortcircuit pre bad post hpre hbad

/-- Witness for C3: an erroring second channel stops the loop after two
lookups and fails the check, with a third channel never queried. -/
theorem C3_witness :
    is_subscribed [some MemberStatus.member, none, some MemberStatus.member] = false
    ∧ lookupsPerformed [some MemberStatus.member, none, some MemberStatus.member] = 2 := by
  have h := C3_is_subscribed [some MemberStatus.member, none, some MemberStatus.member]
  refine ⟨?_, h.2 [some MemberStatus.member] none [some MemberStatus.member]
    rfl (by decide) (by decide)⟩
  rw [h.1]
  decide

/-! ### C1: the view counter -/

/-- A catalog and environment used by several witnesses: two stored movies,
one configured channel reporting `member`, admin allowlist `["1"]`. -/
def dbC1 : DB := ⟨[⟨"A1", "f1", "T1", "Cat", 5⟩, ⟨"B2", "f2", "T2", "Cat", 3⟩], [], []⟩

/-- A subscribed environment (single channel reporting `member`). -/
def ctxSub : Ctx := ⟨["1"], [some MemberStatus.member], fun _ => true, 42⟩

/-- **C1** A successful retrieval — the `movie_` callback with an existing
code, or a non-admin text message whose stripped form equals an existing
code — increments exactly that movie's view counter by 1 (rows with other
codes survive untouched), and a lookup that finds no movie leaves the
database, hence every view counter, unchanged. -/
theorem C1_view_increment (db : DB) (ctx : Ctx) (uid : String) (st : AdminState)
    (code text : String)
    (hsub : is_subscribed ctx.channelStatuses = true)
    (hadm : is_admin ctx uid = false) :
    (∀ m, get_movie db code = some m →
        get_movie (button_handler db ctx (CbData.movieBtn code)).2 code
            = some { m with views := m.views + 1 }
        ∧ ∀ x ∈ db.movies, (x.code == code) = false →
            x ∈ (button_handler db ctx (CbData.movieBtn code)).2.movies)
    ∧ (get_movie db code = none →
        (button_handler db ctx (CbData.movieBtn code)).2 = db)
    ∧ (∀ m, get_movie db (strip text) = some m →
        get_movie (text_handler db ctx uid st text).2.1 (strip text)
            = some { m with views := m.views + 1 }
        ∧ ∀ x ∈ db.movies, (x.code == strip text) = false →
            x ∈ (text_handler db ctx uid st text).2.1.movies)
    ∧ (get_movie db (strip text) = none →
        (text_handler db ctx uid st text).2.1 = db) := by
  refine ⟨?_, ?_, ?_, ?_⟩
  · intro m hm
    have hb : (button_handler db ctx (CbData.movieBtn code)).2
        = update_movie_views db code := by
      simp [button_handler, hsub, hm]
    rw [hb]
    exact ⟨get_movie_update_views db code m hm,
      fun x hx hne => mem_update_movie_views_of_ne db code x hx hne⟩
  · intro hm
    simp [button_handler, hsub, hm]
  · intro m hm
    have ht : (text_handler db ctx uid st text).2.1
        = update_movie_views db (strip text) := by
      simp [text_handler, hsub, hadm, user_text_handler, hm]
    rw [ht]
    exact ⟨get_movie_update_views db (strip text) m hm,
      fun x hx hne => mem_update_movie_views_of_ne db (strip text) x hx hne⟩
  · intro hm
    simp [text_handler, hsub, hadm, user_text_handler, hm, apply_ite]

/-- Witness for C1: opening movie `"A1"` (views 5) by callback and by text
leaves it stored with views 6. -/
theorem C1_witness :
    get_movie (button_handler dbC1 ctxSub (CbData.movieBtn "A1")).2 "A1"
      = some ⟨"A1", "f1", "T1", "Cat", 6⟩
    ∧ get_movie (text_handler dbC1 ctxSub "2" idleState "A1").2.1 (strip "A1")
      = some ⟨"A1", "f1", "T1", "Cat", 6⟩ := by
  have h := C1_view_increment dbC1 ctxSub "2" idleState "A1" "A1"
    (by decide) (by decide)
  exact ⟨(h.1 ⟨"A1", "f1", "T1", "Cat", 5⟩ (by decide)).1,
    (h.2.2.1 ⟨"A1", "f1", "T1", "Cat", 5⟩ (by decide)).1⟩

/-! ### C4: the subscription gate -/

/-- An environment whose single channel lookup raises, so the subscription
check fails (fail-closed). -/
def ctxUnsub : Ctx := ⟨["1"], [none], fun _ => true, 42⟩

/-- **C4, counterexample** The `/admin` command is an inbound command
interaction that produces content (the admin panel) while performing no
subscription check at all — here the environment would even fail the
check. -/
theorem C4_counterexample :
    (adminCmd dbC1 ctxUnsub "1").1 = [Act.reply Msg.adminPanel]
    ∧ (adminCmd dbC1 ctxUnsub "1").1.all (fun a => !a.isSubCheckAct) = true
    ∧ is_subscribed ctxUnsub.channelStatuses = false := by decide

/-- **C4, amended** The `/start`, callback and text handlers perform the
subscription check before producing any content (for `/start`, right after
the user upsert), and a failing check short-circuits to exactly the fixed
please-subscribe reply with no catalog access beyond `/start`'s user upsert;
the `/admin` command handler performs no subscription check. -/
theorem C4_gate (db : DB) (ctx : Ctx) (uid : String) (username : Option String)
    (cb : CbData) (st : AdminState) (text : String) :
    ((start db ctx uid username).1.take 2
        = [Act.upsertUser uid, Act.subCheck (is_subscribed ctx.channelStatuses)])
    ∧ ((button_handler db ctx cb).1.head?
        = some (Act.subCheck (is_subscribed ctx.channelStatuses)))
    ∧ ((text_handler db ctx uid st text).1.head?
        = some (Act.subCheck (is_subscribed ctx.channelStatuses)))
    ∧ (is_subscribed ctx.channelStatuses = false →
        start db ctx uid username
          = ([Act.upsertUser uid, Act.subCheck false, Act.reply Msg.subscribeGate],
             add_user db uid username ctx.now)
        ∧ button_handler db ctx cb
          = ([Act.subCheck false, Act.reply Msg.subscribeGate], db)
        ∧ text_handler db ctx uid st text
          = ([Act.subCheck false, Act.reply Msg.subscribeGate], db, st, Outcome.ok))
    ∧ ((adminCmd db ctx uid).1.all (fun a => !a.isSubCheckAct) = true) := by
  have hadmin : (adminCmd db ctx uid).1.all (fun a => !a.isSubCheckAct) = true := by
    by_cases h : is_admin ctx uid = true <;> simp [adminCmd, h, Act.isSubCheckAct]
  cases hsub : is_subscribed ctx.channelStatuses with
  | false =>
    refine ⟨by simp [start, hsub], by simp [button_handler, hsub], ?_,
      fun _ => ⟨by simp [start, hsub], by simp [button_handler, hsub],
        by simp [text_handler, hsub]⟩, hadmin⟩
    simp [text_handler, hsub]
  | true =>
    refine ⟨by simp [start, hsub], by simp [button_handler, hsub], ?_,
      fun hf => by simp [hsub] at hf, hadmin⟩
    by_cases hadm : is_admin ctx uid = true <;> simp [text_handler, hsub, hadm]

/-- Witness for C4 at a concrete failing environment. -/
theorem C4_witness :
    text_handler dbC1 ctxUnsub "1" idleState "hi"
      = ([Act.subCheck false, Act.reply Msg.subscribeGate], dbC1, idleState,
         Outcome.ok) :=
  ((C4_gate dbC1 ctxUnsub "1" none CbData.infoBtn idleState "hi").2.2.2.1
    (by decide)).2.2

/-! ### C7: when is the user record upserted? -/

/-- Helper DB for the C7 counterexample: one stored user, stale `last_seen`. -/
def dbC7 : DB := ⟨[], [], [⟨"2", "bob", 5⟩]⟩

/-- `update_movie_views` does not touch the users table. -/
theorem users_update_movie_views (db : DB) (code : String) :
    (update_movie_views db code).users = db.users := rfl

/-- `add_movie` does not touch the users table. -/
theorem users_add_movie (db : DB) (c f t cat : String) :
    (add_movie db c f t cat).users = db.users := by
  unfold add_movie
  split <;> rfl

/-- `delete_movie` does not touch the users table. -/
theorem users_delete_movie (db : DB) (code : String) :
    (delete_movie db code).users = db.users := rfl

/-- `add_category` does not touch the users table. -/
theorem users_add_category (db : DB) (name : String) :
    (add_category db name).users = db.users := by
  unfold add_category
  split <;> rfl

/-- `delete_category` does not touch the users table. -/
theorem users_delete_category (db : DB) (name : String) :
    (delete_category db name).users = db.users := rfl

/-- The whole admin text branch leaves the users table unchanged. -/
theorem users_admin_text (db : DB) (ctx : Ctx) (st : AdminState) (text : String) :
    (admin_text_handler db ctx st text).2.1.users = db.users := by
  by_cases h1 : st.adding_movie = true
  · simp only [admin_text_handler, h1, if_true]
    generalize splitSemi text.toList = parts
    by_cases h4 : 4 ≤ parts.length
    · rw [if_pos h4]
      rcases parts with _ | ⟨c1, _ | ⟨c2, _ | ⟨c3, _ | ⟨c4, _ | ⟨c5, rest⟩⟩⟩⟩⟩ <;>
        simp [users_add_movie]
    · rw [if_neg h4]
  · have h1' : st.adding_movie = false := by simpa using h1
    simp only [admin_text_handler]
    rw [h1', if_neg (by simp : ¬(false = true))]
    by_cases h2 : st.deleting_movie = true
    · rw [if_pos h2]; rfl
    rw [if_neg h2]
    by_cases h3 : st.adding_category = true
    · rw [if_pos h3]
      exact users_add_category db text
    rw [if_neg h3]
    by_cases h4 : st.deleting_category = true
    · rw [if_pos h4]; rfl
    rw [if_neg h4]
    by_cases h5 : st.broadcasting = true
    · rw [if_pos h5]
    rw [if_neg h5]
    by_cases t1 : (text == addMovieLabel) = true
    · rw [if_pos t1]
    rw [if_neg t1]
    by_cases t2 : (text == deleteMovieLabel) = true
    · rw [if_pos t2]
    rw [if_neg t2]
    by_cases t3 : (text == addCategoryLabel) = true
    · rw [if_pos t3]
    rw [if_neg t3]
    by_cases t4 : (text == deleteCategoryLabel) = true
    · rw [if_pos t4]
    rw [if_neg t4]
    by_cases t5 : (text == topLabel) = true
    · rw [if_pos t5]
    rw [if_neg t5]
    by_cases t6 : (text == statsLabel) = true
    · rw [if_pos t6]
    rw [if_neg t6]
    by_cases t7 : (text == broadcastLabel) = true
    · rw [if_pos t7]
    rw [if_neg t7]

/-- **C7, counterexample** A callback interaction from stored user `"2"`
(with stale `last_seen = 5`, current time 42) performs no user upsert and
leaves the stale record in place. -/
theorem C7_counterexample :
    (button_handler dbC7 ctxSub CbData.infoBtn).2.users = [⟨"2", "bob", 5⟩]
    ∧ (button_handler dbC7 ctxSub CbData.infoBtn).1.all
        (fun a => !a.isUpsertAct) = true
    ∧ ctxSub.now = 42 := by decide

/-- **C7, amended** Only the `/start` command upserts the interacting user's
record with the current timestamp; the callback handler, the text handler
and the `/admin` command leave the users table unchanged. -/
theorem C7_user_upsert (db : DB) (ctx : Ctx) (uid : String)
    (username : Option String) (cb : CbData) (st : AdminState) (text : String) :
    userLookup (start db ctx uid username).2 uid
      = some ⟨uid, username.getD "", ctx.now⟩
    ∧ (button_handler db ctx cb).2.users = db.users
    ∧ (text_handler db ctx uid st text).2.1.users = db.users
    ∧ (adminCmd db ctx uid).2.users = db.users := by
  refine ⟨?_, ?_, ?_, ?_⟩
  · have hs : (start db ctx uid username).2 = add_user db uid username ctx.now := by
      simp [start, apply_ite]
    rw [hs]
    exact userLookup_add_user db uid username ctx.now
  · by_cases hsub : is_subscribed ctx.channelStatuses = true
    · simp only [button_handler, hsub, if_true]
      cases cb with
      | moviesBtn => simp [apply_ite]
      | categoriesBtn => simp [apply_ite]
      | categoryBtn name => simp [apply_ite]
      | movieBtn code =>
        cases hg : get_movie db code <;> simp [hg, users_update_movie_views]
      | searchBtn => rfl
      | infoBtn => rfl
    · have hsub' : is_subscribed ctx.channelStatuses = false := by simpa using hsub
      simp [button_handler, hsub']
  · by_cases hsub : is_subscribed ctx.channelStatuses = true
    · by_cases hadm : is_admin ctx uid = true
      · simp only [text_handler, hsub, hadm, if_true]
        exact users_admin_text db ctx st (strip text)
      · have hadm' : is_admin ctx uid = false := by simpa using hadm
        simp only [text_handler, hsub, hadm', if_true, Bool.false_eq_true, if_false]
        cases hg : get_movie db (strip text) with
        | some m => simp [user_text_handler, hg, users_update_movie_views]
        | none => simp [user_text_handler, hg, apply_ite]
    · have hsub' : is_subscribed ctx.channelStatuses = false := by simpa using hsub
      simp [text_handler, hsub']
  · by_cases h : is_admin ctx uid = true <;> simp [adminCmd, h]

/-! ### C5, C6, C10: the movie-add flow -/

/-- The awaiting-movie-add admin state. -/
def stAdd : AdminState := ⟨true, false, false, false, false⟩

/-- **C5** An admin in the awaiting-movie-add state sending
`"A1;ref1;Title One;Action"` has it split on `;` into exactly four fields;
the record `{code "A1", file_id "ref1", title "Title One", category
"Action", views 0}` is stored (the code being fresh), the pending flag is
cleared, and a confirmation reply is sent. -/
theorem C5_add_movie_flow (db : DB) (ctx : Ctx) (uid : String) (st : AdminState)
    (hsub : is_subscribed ctx.channelStatuses = true)
    (hadm : is_admin ctx uid = true)
    (hst : st.adding_movie = true)
    (hnew : get_movie db "A1" = none) :
    (text_handler db ctx uid st "A1;ref1;Title One;Action").2.1.movies
      = db.movies ++ [⟨"A1", "ref1", "Title One", "Action", 0⟩]
    ∧ (text_handler db ctx uid st "A1;ref1;Title One;Action").2.2.1
      = { st with adding_movie := false }
    ∧ (text_handler db ctx uid st "A1;ref1;Title One;Action").1
      = [Act.subCheck true, Act.writeCatalog, Act.reply (Msg.addedMovie "Title One")]
    ∧ (text_handler db ctx uid st "A1;ref1;Title One;Action").2.2.2 = Outcome.ok := by
  have hsplit : splitSemi (strip "A1;ref1;Title One;Action").toList
      = ["A1".toList, "ref1".toList, "Title One".toList, "Action".toList] := by decide
  have hc : String.mk (pyStrip "A1".toList) = "A1" := by decide
  have hf : String.mk (pyStrip "ref1".toList) = "ref1" := by decide
  have htt : String.mk (pyStrip "Title One".toList) = "Title One" := by decide
  have hcat : String.mk (pyStrip "Action".toList) = "Action" := by decide
  have ha : admin_text_handler db ctx st (strip "A1;ref1;Title One;Action")
      = ([Act.writeCatalog, Act.reply (Msg.addedMovie "Title One")],
         add_movie db "A1" "ref1" "Title One" "Action",
         { st with adding_movie := false }, Outcome.ok) := by
    simp only [admin_text_handler, hst, if_true, hsplit]
    rw [if_pos (by decide)]
    simp only [hc, hf, htt, hcat]
  have ht : text_handler db ctx uid st "A1;ref1;Title One;Action"
      = ([Act.subCheck true, Act.writeCatalog, Act.reply (Msg.addedMovie "Title One")],
         add_movie db "A1" "ref1" "Title One" "Action",
         { st with adding_movie := false }, Outcome.ok) := by
    simp [text_handler, hsub, hadm, ha]
  rw [ht]
  exact ⟨add_movie_fresh db "A1" "ref1" "Title One" "Action" hnew, rfl, rfl, rfl⟩

/-- Witness for C5 on an empty catalog. -/
theorem C5_witness :
    (text_handler ⟨[], [], []⟩ ctxSub "1" stAdd "A1;ref1;Title One;Action").2.1.movies
      = [⟨"A1", "ref1", "Title One", "Action", 0⟩]
    ∧ (text_handler ⟨[], [], []⟩ ctxSub "1" stAdd "A1;ref1;Title One;Action").2.2.1
      = { stAdd with adding_movie := false } := by
  have h := C5_add_movie_flow ⟨[], [], []⟩ ctxSub "1" stAdd
    (by decide) (by decide) rfl (by decide)
  exact ⟨h.1, h.2.1⟩

/-- **C6** An admin in the awaiting-movie-add state sending a text with
fewer than four `;`-separated fields gets a format-error reply; the
database is untouched and the pending flag remains set. -/
theorem C6_short_input (db : DB) (ctx : Ctx) (uid : String) (st : AdminState)
    (text : String)
    (hsub : is_subscribed ctx.channelStatuses = true)
    (hadm : is_admin ctx uid = true)
    (hst : st.adding_movie = true)
    (hlen : (splitSemi (strip text).toList).length < 4) :
    text_handler db ctx uid st text
      = ([Act.subCheck true, Act.reply Msg.formatError], db, st, Outcome.ok) := by
  have ha : admin_text_handler db ctx st (strip text)
      = ([Act.reply Msg.formatError], db, st, Outcome.ok) := by
    simp only [admin_text_handler, hst, if_true]
    rw [if_neg (by omega)]
  simp [text_handler, hsub, hadm, ha]

/-- Witness for C6: three fields. -/
theorem C6_witness :
    text_handler dbC1 ctxSub "1" stAdd "A1;ref1;Title One"
      = ([Act.subCheck true, Act.reply Msg.formatError], dbC1, stAdd, Outcome.ok) :=
  C6_short_input dbC1 ctxSub "1" stAdd "A1;ref1;Title One"
    (by decide) (by decide) rfl (by decide)

/-- **C10** An admin in the awaiting-movie-add state sending five or more
`;`-separated fields (four or more semicolons) makes the four-way unpacking
raise `ValueError`: the exception escapes the handler, so no movie is
written, no reply is sent, and the pending flag stays set. -/
theorem C10_unpack_error (db : DB) (ctx : Ctx) (uid : String) (st : AdminState)
    (text : String)
    (hsub : is_subscribed ctx.channelStatuses = true)
    (hadm : is_admin ctx uid = true)
    (hst : st.adding_movie = true)
    (hlen : 5 ≤ (splitSemi (strip text).toList).length) :
    text_handler db ctx uid st text
      = ([Act.subCheck true], db, st, Outcome.unpackError) := by
  have ha : admin_text_handler db ctx st (strip text)
      = ([], db, st, Outcome.unpackError) := by
    simp only [admin_text_handler, hst, if_true]
    rw [if_pos (by omega)]
    rcases hp : splitSemi (strip text).toList with
        _ | ⟨a, _ | ⟨b, _ | ⟨c, _ | ⟨d, _ | ⟨e, rest⟩⟩⟩⟩⟩ <;>
      first
        | rfl
        | (rw [hp] at hlen; simp at hlen)
  simp [text_handler, hsub, hadm, ha]

/-- Witness for C10: five fields. -/
theorem C10_witness :
    text_handler dbC1 ctxSub "1" stAdd "a;b;c;d;e"
      = ([Act.subCheck true], dbC1, stAdd, Outcome.unpackError) :=
  C10_unpack_error dbC1 ctxSub "1" stAdd "a;b;c;d;e"
    (by decide) (by decide) rfl (by decide)

/-! ### C8: broadcast -/

/-- **C8** In the broadcasting state, the handler reads the users table once
and attempts delivery to every stored user exactly once, in order; a failed
delivery is recorded and skipped without stopping the loop, and exactly one
completion report is sent, after all attempts.  The database is unchanged
and the broadcasting flag is cleared. -/
theorem C8_broadcast (db : DB) (ctx : Ctx) (uid : String) (st : AdminState)
    (text : String)
    (hsub : is_subscribed ctx.channelStatuses = true)
    (hadm : is_admin ctx uid = true)
    (h1 : st.adding_movie = false) (h2 : st.deleting_movie = false)
    (h3 : st.adding_category = false) (h4 : st.deleting_category = false)
    (hb : st.broadcasting = true) :
    text_handler db ctx uid st text
      = (Act.subCheck true :: Act.readUsers ::
          (db.users.map (fun u => Act.send u.user_id (ctx.deliverOk u.user_id))
            ++ [Act.reply Msg.broadcastDone]),
         db, { st with broadcasting := false }, Outcome.ok)
    ∧ ((text_handler db ctx uid st text).1.filter Act.isSendAct).length
        = db.users.length
    ∧ (∀ u ∈ db.users,
        Act.send u.user_id (ctx.deliverOk u.user_id)
          ∈ (text_handler db ctx uid st text).1)
    ∧ ((text_handler db ctx uid st text).1.filter Act.isDoneAct).length = 1 := by
  have ha : admin_text_handler db ctx st (strip text)
      = ([Act.readUsers]
          ++ db.users.map (fun u => Act.send u.user_id (ctx.deliverOk u.user_id))
          ++ [Act.reply Msg.broadcastDone],
         db, { st with broadcasting := false }, Outcome.ok) := by
    simp [admin_text_handler, h1, h2, h3, h4, hb]
  have hmain : text_handler db ctx uid st text
      = (Act.subCheck true :: Act.readUsers ::
          (db.users.map (fun u => Act.send u.user_id (ctx.deliverOk u.user_id))
            ++ [Act.reply Msg.broadcastDone]),
         db, { st with broadcasting := false }, Outcome.ok) := by
    simp [text_handler, hsub, hadm, ha]
  have hfil : (db.users.map
        (fun u => Act.send u.user_id (ctx.deliverOk u.user_id))).filter Act.isSendAct
      = db.users.map (fun u => Act.send u.user_id (ctx.deliverOk u.user_id)) := by
    rw [List.filter_eq_self]
    intro a ha2
    obtain ⟨u, _, rfl⟩ := List.mem_map.mp ha2
    rfl
  have hd : (db.users.map
        (fun u => Act.send u.user_id (ctx.deliverOk u.user_id))).filter Act.isDoneAct
      = [] := by
    rw [List.filter_eq_nil_iff]
    intro a ha2
    obtain ⟨u, _, rfl⟩ := List.mem_map.mp ha2
    simp [Act.isDoneAct]
  refine ⟨hmain, ?_, ?_, ?_⟩
  · rw [hmain]
    simp only [List.filter_cons, List.filter_append]
    rw [hfil]
    simp [Act.isSendAct]
  · intro u hu
    rw [hmain]
    exact List.mem_cons_of_mem _ (List.mem_cons_of_mem _
      (List.mem_append_left _ (List.mem_map_of_mem _ hu)))
  · rw [hmain]
    simp only [List.filter_cons, List.filter_append]
    rw [hd]
    simp [Act.isDoneAct]

/-- Three stored users; delivery to the second fails. -/
def dbU3 : DB := ⟨[], [], [⟨"u1", "a", 1⟩, ⟨"u2", "b", 2⟩, ⟨"u3", "c", 3⟩]⟩

/-- Environment whose delivery oracle fails exactly for user `"u2"`. -/
def ctxB : Ctx := ⟨["1"], [some MemberStatus.member], fun s => !(s == "u2"), 42⟩

/-- The awaiting-broadcast admin state. -/
def stB : AdminState := ⟨false, false, false, false, true⟩

/-- Witness for C8: broadcasting to three users where the second delivery
fails still attempts the third, and reports completion once. -/
theorem C8_witness :
    text_handler dbU3 ctxB "1" stB "hello"
      = ([Act.subCheck true, Act.readUsers, Act.send "u1" true,
          Act.send "u2" false, Act.send "u3" true, Act.reply Msg.broadcastDone],
         dbU3, { stB with broadcasting := false }, Outcome.ok) := by
  have h := C8_broadcast dbU3 ctxB "1" stB "hello"
    (by decide) (by decide) rfl rfl rfl rfl rfl
  rw [h.1]
  rfl

/-! ### C9: non-admin text dispatch and the title search -/

/-- A wildcard-free pattern matches exactly the equal-up-to-case strings. -/
theorem likeMatch_plain (q : List Char) (hq : ∀ c ∈ q, c ≠ '%' ∧ c ≠ '_') :
    ∀ s, (likeMatch q s = true ↔ q.map Char.toLower = s.map Char.toLower) := by
  induction q with
  | nil => intro s; cases s <;> simp [likeMatch]
  | cons p ps ih =>
    have hp := hq p (List.mem_cons_self p ps)
    intro s
    cases s with
    | nil => simp [likeMatch, hp.1]
    | cons c t =>
      simp only [likeMatch, if_neg hp.1]
      rw [decide_eq_false hp.2]
      simp only [Bool.false_or, Bool.and_eq_true, decide_eq_true_eq]
      rw [ih (fun x hx => hq x (List.mem_cons_of_mem _ hx)) t]
      simp [List.map_cons]

/-- A wildcard-free pattern followed by `%` matches exactly the strings it
case-insensitively starts. -/
theorem likeMatch_percent_end (q : List Char) (hq : ∀ c ∈ q, c ≠ '%' ∧ c ≠ '_') :
    ∀ s, (likeMatch (q ++ ['%']) s = true
      ↔ (q.map Char.toLower) <+: (s.map Char.toLower)) := by
  induction q with
  | nil =>
    intro s
    simp only [List.nil_append, List.map_nil]
    constructor
    · intro _
      exact List.nil_prefix
    · intro _
      simp only [likeMatch, if_true]
      rw [List.any_eq_true]
      exact ⟨[], by simp [List.mem_tails], rfl⟩
  | cons p ps ih =>
    have hp := hq p (List.mem_cons_self p ps)
    intro s
    cases s with
    | nil =>
      simp only [List.cons_append, likeMatch, if_neg hp.1]
      simp
    | cons c t =>
      simp only [List.cons_append, likeMatch, if_neg hp.1]
      rw [decide_eq_false hp.2]
      simp only [Bool.false_or, Bool.and_eq_true, decide_eq_true_eq,
        List.append_eq]
      rw [ih (fun x hx => hq x (List.mem_cons_of_mem _ hx)) t]
      simp [List.map_cons, List.cons_prefix_cons]

/-- A pattern starting with `%` matches a string iff the rest of the pattern
matches some suffix. -/
theorem likeMatch_percent_start (r s : List Char) :
    likeMatch ('%' :: r) s = true ↔ ∃ t, t <:+ s ∧ likeMatch r t = true := by
  simp only [likeMatch, if_true, List.any_eq_true, List.mem_tails]

/-- The pattern `%q%` for wildcard-free `q` matches exactly the strings that
case-insensitively contain `q` as a contiguous substring. -/
theorem likeMatch_infix_char (q s : List Char)
    (hq : ∀ c ∈ q, c ≠ '%' ∧ c ≠ '_') :
    likeMatch ('%' :: q ++ ['%']) s = true
      ↔ (q.map Char.toLower) <:+: (s.map Char.toLower) := by
  rw [show ('%' :: q ++ ['%']) = '%' :: (q ++ ['%']) from rfl,
    likeMatch_percent_start]
  constructor
  · rintro ⟨t, hts, hm⟩
    have hpre := (likeMatch_percent_end q hq t).mp hm
    exact List.infix_iff_prefix_suffix.mpr
      ⟨t.map Char.toLower, hpre, hts.map Char.toLower⟩
  · intro hinf
    obtain ⟨t', hpre, hsuf⟩ := List.infix_iff_prefix_suffix.mp hinf
    obtain ⟨a, ha⟩ := hsuf
    refine ⟨s.drop a.length, List.drop_suffix _ _, ?_⟩
    rw [likeMatch_percent_end q hq]
    have hmap : (s.drop a.length).map Char.toLower = t' := by
      rw [List.map_drop, ← ha, List.drop_left]
    rw [hmap]
    exact hpre

/-- For a query free of `LIKE` wildcards, the source's `ILIKE` search agrees
with the spec's case-insensitive substring search. -/
theorem search_eq_substring (db : DB) (q : String) (hq : noWildcards q = true) :
    search_movies db q = substring_search_spec db q := by
  unfold search_movies substring_search_spec
  apply List.filter_congr
  intro m _
  have hq' : ∀ c ∈ q.toList, c ≠ '%' ∧ c ≠ '_' := by
    intro c hc
    simp only [noWildcards] at hq
    have := List.all_eq_true.mp hq c hc
    simpa using this
  have hiff := likeMatch_infix_char q.toList m.title.toList hq'
  rw [Bool.eq_iff_iff]
  simp only [decide_eq_true_eq]
  exact hiff

/-- **C9, amended** For every non-admin text message (taken after the
source's `strip`): the dispatcher first performs the exact movie-code
lookup; on a hit it increments the views and delivers exactly that movie's
video; on a miss it runs the `ILIKE '%text%'` title match and delivers every
match, replying not-found exactly when the match set is empty; whenever the
text contains neither `LIKE` wildcard (`%`, `_`), this `ILIKE` match is
precisely the case-insensitive substring search the spec describes. -/
theorem C9_text_dispatch (db : DB) (ctx : Ctx) (uid : String) (st : AdminState)
    (text : String)
    (hsub : is_subscribed ctx.channelStatuses = true)
    (hadm : is_admin ctx uid = false) :
    (∀ m, get_movie db (strip text) = some m →
        text_handler db ctx uid st text
          = ([Act.subCheck true, Act.readCatalog, Act.writeCatalog,
              Act.video m.file_id m.title],
             update_movie_views db (strip text), st, Outcome.ok))
    ∧ (get_movie db (strip text) = none →
        (search_movies db (strip text) = [] →
          text_handler db ctx uid st text
            = ([Act.subCheck true, Act.readCatalog, Act.readCatalog,
                Act.reply Msg.notFound], db, st, Outcome.ok))
        ∧ (search_movies db (strip text) ≠ [] →
          text_handler db ctx uid st text
            = (Act.subCheck true :: Act.readCatalog :: Act.readCatalog ::
                (search_movies db (strip text)).map
                  (fun m => Act.video m.file_id m.title),
               db, st, Outcome.ok)))
    ∧ (noWildcards (strip text) = true →
        search_movies db (strip text) = substring_search_spec db (strip text)) := by
  refine ⟨?_, fun hn => ⟨?_, ?_⟩,
    fun hw => search_eq_substring db (strip text) hw⟩
  · intro m hm
    simp [text_handler, hsub, hadm, user_text_handler, hm]
  · intro he
    simp [text_handler, hsub, hadm, user_text_handler, hn, he]
  · intro hne
    have he' : (search_movies db (strip text)).isEmpty = false := by
      cases hh : search_movies db (strip text) with
      | nil => exact absurd hh hne
      | cons a l => rfl
    simp [text_handler, hsub, hadm, user_text_handler, hn, he']

/-- Catalog for the C9 counterexample: a single movie titled `"Abc"`. -/
def dbC9 : DB := ⟨[⟨"X", "fAbc", "Abc", "Cat", 0⟩], [], []⟩

/-- **C9, counterexample** On the text `"%"` the code lookup misses and the
spec's case-insensitive substring search over titles finds nothing, so the
claim as stated requires a not-found reply; the code's `ILIKE '%%%'` instead
matches the title `"Abc"` and delivers its video, with no not-found reply. -/
theorem C9_counterexample :
    get_movie dbC9 "%" = none
    ∧ substring_search_spec dbC9 "%" = []
    ∧ (text_handler dbC9 ctxSub "2" idleState "%").1
        = [Act.subCheck true, Act.readCatalog, Act.readCatalog,
           Act.video "fAbc" "Abc"]
    ∧ Act.reply Msg.notFound ∉ (text_handler dbC9 ctxSub "2" idleState "%").1 := by
  decide

/-- Catalog realising the spec's search example. -/
def dbT : DB :=
  ⟨[⟨"X", "f1", "Title One", "Cat", 0⟩, ⟨"Y", "f2", "Title Two", "Cat", 0⟩], [], []⟩

/-- Witness for C9: searching `"one"` against titles `["Title One",
"Title Two"]` delivers only `"Title One"`, and on this wildcard-free text
the `ILIKE` search coincides with the spec's substring search. -/
theorem C9_witness :
    text_handler dbT ctxSub "2" idleState "one"
      = (Act.subCheck true :: Act.readCatalog :: Act.readCatalog ::
          (search_movies dbT (strip "one")).map
            (fun m => Act.video m.file_id m.title),
         dbT, idleState, Outcome.ok)
    ∧ search_movies dbT (strip "one") = substring_search_spec dbT (strip "one")
    ∧ search_movies dbT (strip "one") = [⟨"X", "f1", "Title One", "Cat", 0⟩] := by
  have h := C9_text_dispatch dbT ctxSub "2" idleState "one" (by decide) (by decide)
  exact ⟨(h.2.1 (by decide)).2 (by decide), h.2.2 (by decide), by decide⟩

end Kino
